import Mathlib

/-!
Verification of the zeekoe scenario test harness (`dev/test-zeekoe.py`).

The file shallowly embeds the Scenario Execution Engine, the Balance
Ledger, the State Snapshot Store, the Chain Readiness Gate and the Batch
Scenario Runner of `dev/test-zeekoe.py`.  Python floats are modelled as
exact rationals (`ℚ`); `random.uniform(0, m)` is modelled as `t * m` for
an arbitrary unit draw `t ∈ [0, 1]`; `round(x, 4)` is modelled as
round-half-to-even at 4 decimal places, Python's documented rounding mode;
the customer's on-disk file set (a directory of files) is modelled as a
function from file names to optional contents; the external `zkchannel`
binary is an opaque collaborator whose invocations are recorded in a
trace and whose exit codes come from an oracle (the Python code reads the
exit code from `run_command` but ignores it at every scenario call site,
which the embedding reproduces).
-/

namespace Zeekoe

/-- Round-half-to-even on rationals: the integer nearest to `x`, ties to
the even integer.  This is the rounding mode of Python's builtin `round`. -/
def rhe (x : ℚ) : ℤ :=
  if x - ⌊x⌋ < 1/2 then ⌊x⌋
  else if 1/2 < x - ⌊x⌋ then ⌊x⌋ + 1
  else if Even ⌊x⌋ then ⌊x⌋ else ⌊x⌋ + 1

/-- `round(x, 4)` from `dev/test-zeekoe.py` line 247: round to 4 decimal
places, half to even. -/
def round4 (x : ℚ) : ℚ := (rhe (x * 10000) : ℚ) / 10000

theorem rhe_le (x : ℚ) : (rhe x : ℚ) ≤ x + 1/2 := by
  unfold rhe
  have hfl : (⌊x⌋ : ℚ) ≤ x := Int.floor_le x
  have hlt : x < ⌊x⌋ + 1 := Int.lt_floor_add_one x
  split
  · linarith
  · split
    · push_cast
      linarith
    · split
      · linarith
      · push_cast
        linarith

theorem le_rhe (x : ℚ) : x - 1/2 ≤ (rhe x : ℚ) := by
  unfold rhe
  have hfl : (⌊x⌋ : ℚ) ≤ x := Int.floor_le x
  have hlt : x < ⌊x⌋ + 1 := Int.lt_floor_add_one x
  split
  · next h => linarith
  · split
    · push_cast
      linarith
    · split
      · next h1 h2 h3 =>
        have : x - ⌊x⌋ = 1/2 := le_antisymm (not_lt.mp h2) (not_lt.mp h1)
        linarith
      · push_cast
        linarith

theorem rhe_nonneg {x : ℚ} (hx : 0 ≤ x) : 0 ≤ rhe x := by
  unfold rhe
  have h0 : (0 : ℤ) ≤ ⌊x⌋ := Int.floor_nonneg.mpr hx
  split
  · exact h0
  · split
    · omega
    · split
      · exact h0
      · omega

/-- If `0 ≤ x ≤ 1/2` then half-to-even rounding yields `0` (the tie at
`1/2` goes to the even integer `0`). -/
theorem rhe_eq_zero {x : ℚ} (h0 : 0 ≤ x) (h1 : x ≤ 1/2) : rhe x = 0 := by
  have hfl : ⌊x⌋ = 0 := by
    rw [Int.floor_eq_zero_iff]
    exact ⟨h0, by linarith⟩
  unfold rhe
  rw [hfl]
  split
  · rfl
  · split
    · next h2 h3 => exact absurd h3 (by push_cast; linarith)
    · split
      · rfl
      · next h2 h3 h4 => exact absurd (even_zero) h4

theorem round4_nonneg {x : ℚ} (hx : 0 ≤ x) : 0 ≤ round4 x := by
  unfold round4
  have := rhe_nonneg (x := x * 10000) (by positivity)
  positivity

theorem round4_le (x : ℚ) : round4 x ≤ x + 1/20000 := by
  unfold round4
  have h := rhe_le (x * 10000)
  rw [div_le_iff₀ (by norm_num : (0:ℚ) < 10000)]
  linarith

theorem le_round4 (x : ℚ) : x - 1/20000 ≤ round4 x := by
  unfold round4
  have h := le_rhe (x * 10000)
  rw [le_div_iff₀ (by norm_num : (0:ℚ) < 10000)]
  linarith

theorem round4_eq_zero {x : ℚ} (h0 : 0 ≤ x) (h1 : x ≤ 1/20000) :
    round4 x = 0 := by
  unfold round4
  rw [rhe_eq_zero (by positivity) (by linarith)]
  norm_num

/-- The key Balance Ledger bound: a `pay` amount drawn as
`round(uniform(0, r/2), 4)` never exceeds the pre-payment balance `r`
(it can, however, exceed `r/2` by up to `1/20000`). -/
theorem pay_amount_le {t r : ℚ} (ht0 : 0 ≤ t) (ht1 : t ≤ 1) (hr : 0 ≤ r) :
    round4 (t * (r / 2)) ≤ r := by
  have hu0 : 0 ≤ t * (r / 2) := by positivity
  have hu : t * (r / 2) ≤ r / 2 := by nlinarith
  rcases le_or_lt (1/10000 : ℚ) r with h | h
  · have := round4_le (t * (r / 2))
    linarith
  · have := round4_eq_zero hu0 (by linarith)
    linarith

/-- Strict residual: when the pre-payment balance is positive, a `pay`
leaves a strictly positive balance. -/
theorem pay_amount_lt {t r : ℚ} (ht0 : 0 ≤ t) (ht1 : t ≤ 1) (hr : 0 < r) :
    round4 (t * (r / 2)) < r := by
  have hu0 : 0 ≤ t * (r / 2) := by positivity
  have hu : t * (r / 2) ≤ r / 2 := by nlinarith
  rcases le_or_lt r (1/10000 : ℚ) with h | h
  · have := round4_eq_zero hu0 (by linarith)
    linarith
  · have := round4_le (t * (r / 2))
    linarith

/-! ### Command vocabulary (lines 50-57 of `dev/test-zeekoe.py`) -/

def ESTABLISH : String := "establish"

def PAY : String := "pay"

def PAY_ALL : String := "pay_all"

def MUTUAL_CLOSE : String := "mutual_close"

def CLOSE : String := "close"

def EXPIRE : String := "expire"

def STORE : String := "store"

def RESTORE : String := "restore"

/-- The minimum blockchain level to be able to run tests (line 65). -/
def MIN_BLOCKCHAIN_LEVEL : ℤ := 60

/-! ### State Snapshot Store -/

/-- A directory of files: basename to optional contents. -/
def Dir := String → Option String

/-- The glob `db_path + '*'` of `transfer_db_files` matches exactly the
files of the source directory whose basename has `db_name` as a prefix. -/
def globMatch (db_name file : String) : Bool :=
  db_name.data.isPrefixOf file.data

/-- `TestScenario.transfer_db_files` (lines 206-213): copy every file of
`src` whose name matches `glob(db_name + '*')` into `dst`, overwriting
files of the same name; files of `dst` that match no copied file are left
in place, and nothing is ever deleted. -/
def transfer_db_files (src dst : Dir) (db_name : String) : Dir :=
  fun n => if globMatch db_name n then (src n).elim (dst n) some else dst n

/-! ### Scenario Execution Engine -/

/-- One recorded invocation of the external `zkchannel` binary. -/
inductive Op where
  | establish (deposit : ℚ)
  | pay (amount : ℚ)
  | closeForce
  | closeMutual
  | custList
  | merchExpire (channel_id : String)
  deriving DecidableEq

/-- The external `zkchannel` processes spawned by `run_command`
(lines 127-144): an oracle giving, for the n-th spawned process, its last
standard-output line and its exit status.  The scenario engine reads both
from `run_command` but ignores them at every dispatch site except
`get_channel_id`, which parses the output of `list`. -/
structure Adapter where
  output : ℕ → String
  rc : ℕ → ℤ

/-- The mutable state of one `TestScenario` (lines 182-204): the Balance
Ledger (`customer_deposit`, `balance_remaining`), the live customer
database directory (`config_path`), the per-channel snapshot directory
(`channel_path`), plus the trace of external invocations made so far and
the index of the next random draw. -/
structure Scen where
  channel_name : String
  customer_deposit : ℚ
  balance_remaining : ℚ
  cust_db : String
  live : Dir
  snap : Dir
  trace : List Op
  draws : ℕ

/-- A fresh `TestScenario.__init__`: the ledger starts at the deposit and
the per-channel snapshot directory does not exist yet (no file matches). -/
def TestScenario.init (channel_name : String) (customer_deposit : ℚ)
    (cust_db : String) (live : Dir) : Scen :=
  { channel_name := channel_name
    customer_deposit := customer_deposit
    balance_remaining := customer_deposit
    cust_db := cust_db
    live := live
    snap := fun _ => none
    trace := []
    draws := 0 }

/-- Result of interpreting (part of) a command list: either the final
scenario state, or `fatal` when `fatal_error` (lines 76-78) was reached,
carrying the `sys.exit` code `-1` and the error message. -/
inductive Outcome where
  | ok (s : Scen)
  | fatal (s : Scen) (code : ℤ) (msg : String)

/-- The scenario state inside an outcome. -/
def Outcome.state : Outcome → Scen
  | .ok s => s
  | .fatal s _ _ => s

/-- Whether the outcome reached `fatal_error`. -/
def Outcome.isFatal : Outcome → Bool
  | .ok _ => false
  | .fatal _ _ _ => true

/-- One iteration of the dispatch chain of
`TestScenario.run_command_list` (lines 230-312).  `t n` is the n-th unit
draw of `random.uniform` (`uniform(0, m) = t * m` with `0 ≤ t ≤ 1`);
`a` supplies the outputs and exit codes of the spawned processes, which
the Python code discards at every branch (only `get_channel_id`, inside
the `expire` branch, reads an output). -/
def step (t : ℕ → ℚ) (a : Adapter) (s : Scen) (command : String) : Outcome :=
  if command = ESTABLISH then
    .ok { s with trace := s.trace ++ [.establish s.customer_deposit] }
  else if command = PAY then
    -- max_pay_amount = balance_remaining / 2; save money for future payments
    -- pay_amount = round(uniform(0, max_pay_amount), 4)
    .ok { s with
      balance_remaining :=
        s.balance_remaining - round4 (t s.draws * (s.balance_remaining / 2))
      draws := s.draws + 1
      trace := s.trace ++ [.pay (round4 (t s.draws * (s.balance_remaining / 2)))] }
  else if command = PAY_ALL then
    .ok { s with
      balance_remaining := 0
      trace := s.trace ++ [.pay s.balance_remaining] }
  else if command = CLOSE then
    .ok { s with trace := s.trace ++ [.closeForce] }
  else if command = STORE then
    .ok { s with snap := transfer_db_files s.live s.snap s.cust_db }
  else if command = RESTORE then
    .ok { s with live := transfer_db_files s.snap s.live s.cust_db }
  else if command = MUTUAL_CLOSE then
    .ok { s with trace := s.trace ++ [.closeMutual] }
  else if command = EXPIRE then
    .ok { s with trace :=
      s.trace ++ [.custList, .merchExpire (a.output s.trace.length)] }
  else
    .fatal s (-1) (command ++ " not a recognized command.")

/-- `TestScenario.run_command_list`: interpret the commands in order,
stopping only when `fatal_error` terminates the process. -/
def run_command_list (t : ℕ → ℚ) (a : Adapter) : Scen → List String → Outcome
  | s, [] => .ok s
  | s, c :: cs =>
    match step t a s c with
    | .ok s' => run_command_list t a s' cs
    | .fatal s' code msg => .fatal s' code msg

/-- The eight recognized command tokens, in the order of the dispatch
chain. -/
def RECOGNIZED : List String :=
  [ESTABLISH, PAY, PAY_ALL, CLOSE, MUTUAL_CLOSE, EXPIRE, STORE, RESTORE]

/-! ### Chain Readiness Gate -/

/-- `check_blockchain_maturity` (lines 173-180), with explicit fuel so the
recursion is total: `height i` is the level returned by the i-th poll of
`get_blockchain_level`; the returned list records, for every poll that
observed a level below `MIN_BLOCKCHAIN_LEVEL`, the observed level and the
seconds slept (`blocks_short * 2`); the returned integer is the level
observed by the final poll.  `none` means the fuel ran out before the
threshold was reached. -/
def check_blockchain_maturity (height : ℕ → ℤ) :
    ℕ → ℕ → List (ℤ × ℤ) → Option (List (ℤ × ℤ) × ℤ)
  | 0, _, _ => none
  | fuel+1, i, sleeps =>
    if height i < MIN_BLOCKCHAIN_LEVEL then
      check_blockchain_maturity height fuel (i+1)
        (sleeps ++ [(height i, (MIN_BLOCKCHAIN_LEVEL - height i) * 2)])
    else some (sleeps, height i)

/-! ### Batch Scenario Runner (`test-all`, lines 397-437) -/

def close_methods : List String := [MUTUAL_CLOSE, CLOSE, EXPIRE]

/-- The command lists enumerated by the `TEST_ALL` branch: for each close
method the four payment-count variants, then the four dispute-flow
lists. -/
def tests_to_run : List (List String) :=
  (close_methods.map fun close_method =>
    [[ESTABLISH, close_method],
     [ESTABLISH, PAY, close_method],
     [ESTABLISH, PAY, PAY, close_method],
     [ESTABLISH, PAY_ALL, close_method]]).flatten
  ++ [[ESTABLISH, STORE, PAY, RESTORE, CLOSE],
      [ESTABLISH, PAY, STORE, PAY, RESTORE, CLOSE],
      [ESTABLISH, STORE, PAY, PAY, PAY, RESTORE, CLOSE],
      [ESTABLISH, STORE, PAY_ALL, RESTORE, CLOSE]]

/-- The channel label of the i-th batch case:
`channel_name = f"my-zkchannel-{i}"`. -/
def batchLabel (i : ℕ) : String := "my-zkchannel-" ++ toString i

/-- The labels used by the batch runner, one per enumerated test. -/
def batchLabels : List String :=
  (List.range tests_to_run.length).map batchLabel

/-! ### Equations of the dispatch chain, one per branch -/

theorem run_nil (t : ℕ → ℚ) (a : Adapter) (s : Scen) :
    run_command_list t a s [] = .ok s := rfl

theorem run_cons (t : ℕ → ℚ) (a : Adapter) (s : Scen) (c : String)
    (cs : List String) :
    run_command_list t a s (c :: cs) =
      match step t a s c with
      | .ok s' => run_command_list t a s' cs
      | .fatal s' code msg => .fatal s' code msg := rfl

theorem step_establish_eq (t : ℕ → ℚ) (a : Adapter) (s : Scen) :
    step t a s ESTABLISH
      = .ok { s with trace := s.trace ++ [.establish s.customer_deposit] } := rfl

theorem step_pay_eq (t : ℕ → ℚ) (a : Adapter) (s : Scen) :
    step t a s PAY
      = .ok { s with
          balance_remaining :=
            s.balance_remaining - round4 (t s.draws * (s.balance_remaining / 2))
          draws := s.draws + 1
          trace :=
            s.trace ++ [.pay (round4 (t s.draws * (s.balance_remaining / 2)))] } :=
  rfl

theorem step_pay_all_eq (t : ℕ → ℚ) (a : Adapter) (s : Scen) :
    step t a s PAY_ALL
      = .ok { s with
          balance_remaining := 0
          trace := s.trace ++ [.pay s.balance_remaining] } := rfl

theorem step_close_eq (t : ℕ → ℚ) (a : Adapter) (s : Scen) :
    step t a s CLOSE = .ok { s with trace := s.trace ++ [.closeForce] } := rfl

theorem step_store_eq (t : ℕ → ℚ) (a : Adapter) (s : Scen) :
    step t a s STORE
      = .ok { s with snap := transfer_db_files s.live s.snap s.cust_db } := rfl

theorem step_restore_eq (t : ℕ → ℚ) (a : Adapter) (s : Scen) :
    step t a s RESTORE
      = .ok { s with live := transfer_db_files s.snap s.live s.cust_db } := rfl

theorem step_mutual_close_eq (t : ℕ → ℚ) (a : Adapter) (s : Scen) :
    step t a s MUTUAL_CLOSE
      = .ok { s with trace := s.trace ++ [.closeMutual] } := rfl

theorem step_expire_eq (t : ℕ → ℚ) (a : Adapter) (s : Scen) :
    step t a s EXPIRE
      = .ok { s with trace :=
          s.trace ++ [.custList, .merchExpire (a.output s.trace.length)] } := rfl

/-- Splitting a run at an append boundary. -/
theorem run_append (t : ℕ → ℚ) (a : Adapter) (xs ys : List String) :
    ∀ s : Scen,
      run_command_list t a s (xs ++ ys) =
        match run_command_list t a s xs with
        | .ok s' => run_command_list t a s' ys
        | .fatal s' code msg => .fatal s' code msg := by
  induction xs with
  | nil => intro s; rfl
  | cons c cs ih =>
    intro s
    rw [List.cons_append, run_cons, run_cons]
    cases step t a s c with
    | ok s' => exact ih s'
    | fatal s' code msg => rfl

/-- A command outside the recognized vocabulary reaches `fatal_error`
with the state untouched. -/
theorem step_unrecognized (t : ℕ → ℚ) (a : Adapter) (s : Scen) {c : String}
    (hc : c ∉ RECOGNIZED) :
    step t a s c = .fatal s (-1) (c ++ " not a recognized command.") := by
  simp only [RECOGNIZED, List.mem_cons, List.not_mem_nil, or_false, not_or] at hc
  obtain ⟨h1, h2, h3, h4, h5, h6, h7, h8⟩ := hc
  unfold step
  rw [if_neg h1, if_neg h2, if_neg h3, if_neg h4, if_neg h7, if_neg h8,
    if_neg h5, if_neg h6]

/-! ### Shared concrete fixtures for witnesses and counterexamples -/

/-- A deterministic unit-draw oracle: every `random.uniform(0, m)` call
returns `m/2`. -/
def tW : ℕ → ℚ := fun _ => 1/2

/-- An adapter whose processes emit an empty last line and exit with
status 0. -/
def adapter0 : Adapter := { output := fun _ => "", rc := fun _ => 0 }

/-- An adapter whose spawned processes all fail (exit status 1). -/
def adapterFail : Adapter := { output := fun _ => "", rc := fun _ => 1 }

/-- A live customer directory holding just the database file. -/
def liveW : Dir :=
  fun n => if n = "customer-sandbox.db" then some "state-v0" else none

/-- A fresh scenario on channel `my-zkchannel-1` with a 10 XTZ deposit. -/
def scenW : Scen :=
  TestScenario.init "my-zkchannel-1" 10 "customer-sandbox.db" liveW

/-! ### Claim C1 -/

/-- Every single command preserves non-negativity of the ledger. -/
theorem step_balance_nonneg (t : ℕ → ℚ) (a : Adapter)
    (ht : ∀ i, 0 ≤ t i ∧ t i ≤ 1) (s : Scen) (c : String)
    (hs : 0 ≤ s.balance_remaining) :
    0 ≤ ((step t a s c).state).balance_remaining := by
  unfold step
  split_ifs <;> simp only [Outcome.state] <;> try exact hs
  · -- the pay branch
    have h := pay_amount_le (ht s.draws).1 (ht s.draws).2 hs
    linarith
  · -- the pay_all branch
    exact le_refl 0

/-- Non-negativity of the ledger is preserved by any whole command list. -/
theorem run_balance_nonneg (t : ℕ → ℚ) (a : Adapter)
    (ht : ∀ i, 0 ≤ t i ∧ t i ≤ 1) :
    ∀ (cmds : List String) (s : Scen), 0 ≤ s.balance_remaining →
      0 ≤ ((run_command_list t a s cmds).state).balance_remaining
  | [], _, hs => hs
  | c :: cs, s, hs => by
    rw [run_cons]
    have hstep := step_balance_nonneg t a ht s c hs
    cases h : step t a s c with
    | ok s' =>
      rw [h] at hstep
      exact run_balance_nonneg t a ht cs s' hstep
    | fatal s' code msg =>
      rw [h] at hstep
      exact hstep

/-- Claim C1: for every scenario started with a non-negative deposit, and
for every command sequence and every randomized draw, the Balance
Ledger's `balance_remaining` is ≥ 0 after executing each `pay` and each
`pay_all` command (the statement quantifies over every command list, so
it applies to every prefix of a run, in particular to the prefixes ending
right after a `pay` or a `pay_all`). -/
theorem claim_C1_balance_remaining_nonneg (t : ℕ → ℚ) (a : Adapter)
    (ht : ∀ i, 0 ≤ t i ∧ t i ≤ 1) (channel_name cust_db : String) (d : ℚ)
    (hd : 0 ≤ d) (live : Dir) (cmds : List String) :
    0 ≤ ((run_command_list t a
      (TestScenario.init channel_name d cust_db live) cmds).state).balance_remaining :=
  run_balance_nonneg t a ht cmds _ hd

/-- Witness for C1 at a concrete run: deposit 10, draws all `m/2`,
command list `[establish, pay, pay, pay_all, close]`. -/
theorem claim_C1_witness :
    0 ≤ ((run_command_list tW adapter0
      (TestScenario.init "my-zkchannel-1" 10 "customer-sandbox.db" liveW)
      [ESTABLISH, PAY, PAY, PAY_ALL, CLOSE]).state).balance_remaining :=
  claim_C1_balance_remaining_nonneg tW adapter0
    (fun _ => by constructor <;> norm_num [tW])
    "my-zkchannel-1" "customer-sandbox.db" 10 (by norm_num) liveW
    [ESTABLISH, PAY, PAY, PAY_ALL, CLOSE]

/-! ### Claim C5 -/

/-- Claim C5: `pay_all` leaves `balance_remaining = 0` and dispatches a
payment of the whole pre-command balance; a second `pay_all` immediately
afterwards dispatches a payment of 0 and leaves `balance_remaining = 0`. -/
theorem claim_C5_pay_all_idempotent (t : ℕ → ℚ) (a : Adapter) (s : Scen) :
    (((run_command_list t a s [PAY_ALL]).state).balance_remaining = 0
      ∧ ((run_command_list t a s [PAY_ALL]).state).trace
          = s.trace ++ [.pay s.balance_remaining])
    ∧ (((run_command_list t a s [PAY_ALL, PAY_ALL]).state).balance_remaining = 0
      ∧ ((run_command_list t a s [PAY_ALL, PAY_ALL]).state).trace
          = s.trace ++ [.pay s.balance_remaining, .pay 0]) := by
  refine ⟨⟨rfl, rfl⟩, rfl, ?_⟩
  show s.trace ++ [Op.pay s.balance_remaining] ++ [Op.pay 0]
      = s.trace ++ [Op.pay s.balance_remaining, Op.pay 0]
  simp

/-! ### Claim C10 -/

/-- Claim C10: `store` and `restore` leave both Balance Ledger fields
(`balance_remaining`, `customer_deposit`) unchanged; consequently, after
`store; pay; restore` the restored on-disk database file is back at its
store-time contents while the ledger keeps the post-payment balance, so
the two can disagree (shown on a concrete scenario: deposit 10, draw
`m/2`, where the ledger ends at 7.5 while the database file is back to
its store-time contents). -/
theorem claim_C10_store_restore_ledger_frame (t : ℕ → ℚ) (a : Adapter)
    (s : Scen) :
    (((step t a s STORE).state).balance_remaining = s.balance_remaining
      ∧ ((step t a s STORE).state).customer_deposit = s.customer_deposit)
    ∧ (((step t a s RESTORE).state).balance_remaining = s.balance_remaining
      ∧ ((step t a s RESTORE).state).customer_deposit = s.customer_deposit)
    ∧ (((run_command_list tW adapter0 scenW [STORE, PAY, RESTORE]).state).live
          "customer-sandbox.db" = scenW.live "customer-sandbox.db"
      ∧ ((run_command_list tW adapter0 scenW [STORE, PAY, RESTORE]).state).balance_remaining
          ≠ scenW.balance_remaining) := by
  refine ⟨⟨rfl, rfl⟩, ⟨rfl, rfl⟩, rfl, ?_⟩
  show (10 : ℚ) - round4 (tW 0 * ((10 : ℚ) / 2)) ≠ 10
  norm_num [tW, round4, rhe]

/-! ### Claim C7 -/

/-- Claim C7: the `test-all` branch constructs exactly `3*4 + 4 = 16`
command lists — the three close methods each paired with the four
payment-count variants, then the four fixed dispute lists — and gives the
i-th case the channel label `my-zkchannel-i`, all sixteen labels being
pairwise distinct. -/
theorem claim_C7_test_all_sixteen_distinct_labels :
    tests_to_run.length = 3 * 4 + 4
    ∧ close_methods.length = 3
    ∧ (∀ cm ∈ close_methods,
        [ESTABLISH, cm] ∈ tests_to_run
        ∧ [ESTABLISH, PAY, cm] ∈ tests_to_run
        ∧ [ESTABLISH, PAY, PAY, cm] ∈ tests_to_run
        ∧ [ESTABLISH, PAY_ALL, cm] ∈ tests_to_run)
    ∧ [ESTABLISH, STORE, PAY, RESTORE, CLOSE] ∈ tests_to_run
    ∧ [ESTABLISH, PAY, STORE, PAY, RESTORE, CLOSE] ∈ tests_to_run
    ∧ [ESTABLISH, STORE, PAY, PAY, PAY, RESTORE, CLOSE] ∈ tests_to_run
    ∧ [ESTABLISH, STORE, PAY_ALL, RESTORE, CLOSE] ∈ tests_to_run
    ∧ batchLabels.length = 16
    ∧ batchLabels.Nodup := by
  decide

/-! ### Claim C2 -/

/-- Unit draw 152/155: `uniform(0, r/2)` returns 0.000152 when
r = 0.00031. -/
def tC2 : ℕ → ℚ := fun _ => 152/155

/-- A scenario whose Balance Ledger currently holds 0.00031 XTZ. -/
def scenC2 : Scen := { scenW with balance_remaining := 31/100000 }

/-- Claim C2 fails as stated: with pre-payment balance r = 0.00031 and the
draw `uniform(0, r/2) = 0.000152` (a legal draw, unit part 152/155 ∈
[0,1]), the engine pays `round(0.000152, 4) = 0.0002`, which exceeds
r/2 = 0.000155 — rounding to 4 decimal places can round a draw upwards
past the half-balance cap. -/
theorem claim_C2_counterexample :
    (0 ≤ tC2 0 ∧ tC2 0 ≤ 1)
    ∧ ((step tC2 adapter0 scenC2 PAY).state).trace = [.pay (2/10000)]
    ∧ ¬ ((2/10000 : ℚ) ≤ scenC2.balance_remaining / 2) := by
  refine ⟨⟨by norm_num [tC2], by norm_num [tC2]⟩, ?_, ?_⟩
  · show [Op.pay (round4 (tC2 0 * ((31/100000 : ℚ) / 2)))]
        = [Op.pay (2/10000)]
    norm_num [tC2, round4, rhe]
  · show ¬ ((2/10000 : ℚ) ≤ (31/100000 : ℚ) / 2)
    norm_num

/-- Claim C2 amended: the amount spent by a single `pay` is at most
`r/2 + 1/20000` — it can exceed the half-balance cap only by the
4-decimal rounding half-step — and when the pre-payment balance is
strictly positive, the post-payment balance is still strictly positive
(when r = 0 the pay spends 0 and leaves exactly 0). -/
theorem claim_C2_amended_pay_bounds (t : ℕ → ℚ) (a : Adapter) (s : Scen)
    (ht0 : 0 ≤ t s.draws) (ht1 : t s.draws ≤ 1)
    (hr : 0 < s.balance_remaining) :
    round4 (t s.draws * (s.balance_remaining / 2))
        ≤ s.balance_remaining / 2 + 1/20000
    ∧ 0 < ((step t a s PAY).state).balance_remaining := by
  have hu : t s.draws * (s.balance_remaining / 2) ≤ s.balance_remaining / 2 := by
    nlinarith
  constructor
  · have h := round4_le (t s.draws * (s.balance_remaining / 2))
    linarith
  · show 0 < s.balance_remaining - round4 (t s.draws * (s.balance_remaining / 2))
    have h := pay_amount_lt ht0 ht1 hr
    linarith

/-- Witness for the amended C2 at a concrete state: balance 10, draw
`m/2`. -/
theorem claim_C2_amended_witness :
    (0 ≤ tW scenW.draws ∧ tW scenW.draws ≤ 1 ∧ 0 < scenW.balance_remaining)
    ∧ (round4 (tW scenW.draws * (scenW.balance_remaining / 2))
          ≤ scenW.balance_remaining / 2 + 1/20000
      ∧ 0 < ((step tW adapter0 scenW PAY).state).balance_remaining) := by
  have ht0 : 0 ≤ tW scenW.draws := by norm_num [tW]
  have ht1 : tW scenW.draws ≤ 1 := by norm_num [tW]
  have hr : 0 < scenW.balance_remaining := by
    show (0 : ℚ) < 10
    norm_num
  exact ⟨⟨ht0, ht1, hr⟩, claim_C2_amended_pay_bounds tW adapter0 scenW ht0 ht1 hr⟩

/-! ### Claim C3 -/

/-- A live directory holding only the primary database file. -/
def liveC3 : Dir :=
  fun n => if n = "customer-sandbox.db" then some "state-current" else none

/-- A snapshot directory holding a stale write-ahead-log companion left by
an earlier run, with no counterpart among the live files. -/
def snapC3 : Dir :=
  fun n => if n = "customer-sandbox.db-wal" then some "stale-journal" else none

/-- A scenario state whose snapshot directory holds the stale companion. -/
def scenC3 : Scen := { scenW with live := liveC3, snap := snapC3 }

/-- Claim C3 fails as stated: when the per-channel snapshot directory
holds a stale companion file (`customer-sandbox.db-wal`) absent from the
live directory, `store` does not delete it, so the immediately following
`restore` copies it back into the live directory — the live file set after
`store; restore` is not identical to its store-time value. -/
theorem claim_C3_counterexample :
    ((run_command_list tW adapter0 scenC3 [STORE, RESTORE]).state).live
      ≠ scenC3.live := by
  intro h
  have h2 := congrFun h "customer-sandbox.db-wal"
  have e1 : ((run_command_list tW adapter0 scenC3 [STORE, RESTORE]).state).live
      "customer-sandbox.db-wal" = some "stale-journal" := rfl
  have e2 : scenC3.live "customer-sandbox.db-wal" = none := rfl
  rw [e1, e2] at h2
  exact Option.noConfusion h2

/-- Claim C3 amended: provided every snapshot-directory file matching the
glob is also present in the live directory (in particular whenever the
per-channel snapshot directory does not yet exist or was populated by a
store of the current live file set), `store` immediately followed by
`restore` leaves the live file set identical to its store-time value —
hence every observation of the live files, in particular the reported
balance, is unchanged. -/
theorem claim_C3_amended_store_restore_identity (t : ℕ → ℚ) (a : Adapter)
    (s : Scen)
    (hcover : ∀ n, globMatch s.cust_db n = true →
        (s.snap n).isSome = true → (s.live n).isSome = true) :
    ((run_command_list t a s [STORE, RESTORE]).state).live = s.live := by
  funext n
  show transfer_db_files (transfer_db_files s.live s.snap s.cust_db)
      s.live s.cust_db n = s.live n
  unfold transfer_db_files
  by_cases hg : globMatch s.cust_db n
  · rw [if_pos hg, if_pos hg]
    cases hl : s.live n with
    | some c => rfl
    | none =>
      cases hsn : s.snap n with
      | none => rfl
      | some c =>
        have h1 := hcover n hg (by rw [hsn]; rfl)
        rw [hl] at h1
        exact Bool.noConfusion h1
  · simp only [hg, if_false, Bool.false_eq_true]

/-- Witness for the amended C3: a fresh scenario, whose snapshot
directory is empty. -/
theorem claim_C3_amended_witness :
    (∀ n, globMatch scenW.cust_db n = true →
        (scenW.snap n).isSome = true → (scenW.live n).isSome = true)
    ∧ ((run_command_list tW adapter0 scenW [STORE, RESTORE]).state).live
        = scenW.live := by
  have hcover : ∀ n, globMatch scenW.cust_db n = true →
      (scenW.snap n).isSome = true → (scenW.live n).isSome = true := by
    intro n _ h
    exact Bool.noConfusion h
  exact ⟨hcover,
    claim_C3_amended_store_restore_identity tW adapter0 scenW hcover⟩

/-! ### Claim C6 -/

/-- Claim C6 fails as stated: a `restore` with no prior `store` (fresh
scenario, whose per-channel snapshot directory was never created, so the
glob matches nothing) is a silent no-op — the run reports no failure and
leaves the live directory and the dispatch trace unchanged, rather than
producing a distinct, explicit failure. -/
theorem claim_C6_counterexample :
    (run_command_list tW adapter0 scenW [RESTORE]).isFatal = false
    ∧ ((run_command_list tW adapter0 scenW [RESTORE]).state).live = scenW.live
    ∧ ((run_command_list tW adapter0 scenW [RESTORE]).state).trace
        = scenW.trace := by
  refine ⟨rfl, ?_, rfl⟩
  funext n
  show transfer_db_files scenW.snap scenW.live scenW.cust_db n = scenW.live n
  unfold transfer_db_files
  have hsn : scenW.snap n = none := rfl
  rw [hsn]
  split <;> rfl

/-- Claim C6 amended: `restore` with no prior `store` is a silent no-op,
not an explicit failure: with an empty snapshot directory the engine
reports no error, copies nothing, and leaves the scenario state exactly
as it was. -/
theorem claim_C6_amended_restore_noop (t : ℕ → ℚ) (a : Adapter) (s : Scen)
    (hempty : ∀ n, s.snap n = none) :
    (run_command_list t a s [RESTORE]).isFatal = false
    ∧ (run_command_list t a s [RESTORE]).state = s := by
  refine ⟨rfl, ?_⟩
  have hl : transfer_db_files s.snap s.live s.cust_db = s.live := by
    funext n
    unfold transfer_db_files
    rw [hempty n]
    split <;> rfl
  show ({ s with live := transfer_db_files s.snap s.live s.cust_db } : Scen) = s
  rw [hl]

/-- Witness for the amended C6 on the fresh concrete scenario. -/
theorem claim_C6_amended_witness :
    (∀ n, scenW.snap n = none)
    ∧ (run_command_list tW adapter0 scenW [RESTORE]).isFatal = false
    ∧ (run_command_list tW adapter0 scenW [RESTORE]).state = scenW := by
  have hempty : ∀ n, scenW.snap n = none := fun _ => rfl
  exact ⟨hempty, claim_C6_amended_restore_noop tW adapter0 scenW hempty⟩

/-! ### Claim C4 -/

/-- Claim C4 fails on the code (known defect, the spec's abort behavior
is the stated intent): the establish branch of `run_command_list`
discards the `(output, rc)` pair returned by `run_command`, so even when
the spawned establish process exits with a non-zero status the engine
does not abort — it reports no failure and dispatches every remaining
command; here the `pay` after the failed `establish` is still
dispatched. -/
theorem claim_C4_establish_failure_not_aborted (t : ℕ → ℚ) (a : Adapter)
    (hfail : a.rc 0 ≠ 0) (s : Scen) (hs : s.trace = []) :
    (run_command_list t a s [ESTABLISH, PAY]).isFatal = false
    ∧ ((run_command_list t a s [ESTABLISH, PAY]).state).trace
        = [.establish s.customer_deposit,
           .pay (round4 (t s.draws * (s.balance_remaining / 2)))] := by
  refine ⟨rfl, ?_⟩
  show (s.trace ++ [Op.establish s.customer_deposit])
        ++ [Op.pay (round4 (t s.draws * (s.balance_remaining / 2)))]
      = [Op.establish s.customer_deposit,
         Op.pay (round4 (t s.draws * (s.balance_remaining / 2)))]
  rw [hs]
  rfl

/-- Witness for C4: the adapter whose every spawned process exits with
status 1. -/
theorem claim_C4_witness :
    (adapterFail.rc 0 ≠ 0 ∧ scenW.trace = [])
    ∧ ((run_command_list tW adapterFail scenW [ESTABLISH, PAY]).isFatal = false
      ∧ ((run_command_list tW adapterFail scenW [ESTABLISH, PAY]).state).trace
          = [.establish scenW.customer_deposit,
             .pay (round4 (tW scenW.draws * (scenW.balance_remaining / 2)))]) := by
  have h1 : adapterFail.rc 0 ≠ 0 := by decide
  have h2 : scenW.trace = [] := rfl
  exact ⟨⟨h1, h2⟩,
    claim_C4_establish_failure_not_aborted tW adapterFail h1 scenW h2⟩

/-! ### Claim C8 -/

/-- Claim C8: when the engine reaches a command token outside the eight
recognized commands, `fatal_error` terminates the whole process via
`sys.exit(-1)` — a non-zero exit status — with the scenario state exactly
as the prefix left it; no command after the unrecognized token is
dispatched (the outcome does not depend on `post` at all). -/
theorem claim_C8_unrecognized_fatal (t : ℕ → ℚ) (a : Adapter) (s s1 : Scen)
    (pre post : List String) (c : String) (hc : c ∉ RECOGNIZED)
    (hpre : run_command_list t a s pre = .ok s1) :
    run_command_list t a s (pre ++ c :: post)
      = .fatal s1 (-1) (c ++ " not a recognized command.")
    ∧ (-1 : ℤ) ≠ 0 := by
  constructor
  · rw [run_append, hpre]
    show run_command_list t a s1 (c :: post) = _
    rw [run_cons, step_unrecognized t a s1 hc]
  · decide

/-- Witness for C8: the misspelled token `payy` after an empty prefix. -/
theorem claim_C8_witness :
    ("payy" ∉ RECOGNIZED
      ∧ run_command_list tW adapter0 scenW [] = .ok scenW)
    ∧ (run_command_list tW adapter0 scenW ([] ++ "payy" :: [CLOSE])
          = .fatal scenW (-1) ("payy" ++ " not a recognized command.")
      ∧ (-1 : ℤ) ≠ 0) := by
  have hc : "payy" ∉ RECOGNIZED := by decide
  have hpre : run_command_list tW adapter0 scenW [] = .ok scenW := rfl
  exact ⟨⟨hc, hpre⟩,
    claim_C8_unrecognized_fatal tW adapter0 scenW scenW [] [CLOSE] "payy" hc hpre⟩

/-! ### Claim C9 -/

/-- Every successful return of the gate satisfies: each recorded sleep is
exactly `(60 - level) * 2` seconds for the below-threshold level its poll
observed, and the final observed level is at least 60. -/
theorem gate_run_spec (height : ℕ → ℤ) :
    ∀ (fuel i : ℕ) (acc : List (ℤ × ℤ)) (res : List (ℤ × ℤ) × ℤ),
      (∀ p ∈ acc, p.2 = (60 - p.1) * 2 ∧ p.1 < 60) →
      check_blockchain_maturity height fuel i acc = some res →
      (∀ p ∈ res.1, p.2 = (60 - p.1) * 2 ∧ p.1 < 60) ∧ 60 ≤ res.2 := by
  intro fuel
  induction fuel with
  | zero =>
    intro i acc res hacc h
    exact Option.noConfusion h
  | succ fuel ih =>
    intro i acc res hacc h
    rw [check_blockchain_maturity] at h
    by_cases hlt : height i < MIN_BLOCKCHAIN_LEVEL
    · rw [if_pos hlt] at h
      refine ih (i+1) _ res ?_ h
      intro p hp
      rcases List.mem_append.mp hp with hp | hp
      · exact hacc p hp
      · rw [List.mem_singleton.mp hp]
        refine ⟨rfl, ?_⟩
        show height i < 60
        exact hlt
    · rw [if_neg hlt] at h
      obtain rfl : (acc, height i) = res := by injection h
      refine ⟨hacc, ?_⟩
      show (60 : ℤ) ≤ height i
      exact not_lt.mp hlt

/-- For a height sequence growing by exactly 1 per poll, fuel one more
than the initial deficit lets the gate return. -/
theorem gate_terminates (height : ℕ → ℤ)
    (hstep : ∀ i, height (i+1) = height i + 1) :
    ∀ (fuel i : ℕ) (acc : List (ℤ × ℤ)),
      (MIN_BLOCKCHAIN_LEVEL - height i).toNat < fuel →
      ∃ res, check_blockchain_maturity height fuel i acc = some res := by
  intro fuel
  induction fuel with
  | zero =>
    intro i acc h
    omega
  | succ fuel ih =>
    intro i acc hfuel
    rw [check_blockchain_maturity]
    by_cases hlt : height i < MIN_BLOCKCHAIN_LEVEL
    · rw [if_pos hlt]
      refine ih (i+1) _ ?_
      have h1 := hstep i
      omega
    · rw [if_neg hlt]
      exact ⟨_, rfl⟩

/-- Claim C9: on each poll observing a level h below the threshold of 60
the gate sleeps exactly `(60 - h) * 2` seconds before re-polling, and for
every height sequence that increases by exactly 1 on each successive poll
the gate terminates after finitely many polls — fuel
`(60 - height 0).toNat + 1` suffices — returning only when the last
observed level is at least 60. -/
theorem claim_C9_gate_sleeps_and_terminates (height : ℕ → ℤ)
    (hstep : ∀ i, height (i+1) = height i + 1) :
    ∃ sleeps final,
      check_blockchain_maturity height
          ((MIN_BLOCKCHAIN_LEVEL - height 0).toNat + 1) 0 []
        = some (sleeps, final)
      ∧ 60 ≤ final
      ∧ ∀ p ∈ sleeps, p.2 = (60 - p.1) * 2 ∧ p.1 < 60 := by
  obtain ⟨⟨sleeps, final⟩, hres⟩ :=
    gate_terminates height hstep ((MIN_BLOCKCHAIN_LEVEL - height 0).toNat + 1)
      0 [] (by omega)
  have hspec := gate_run_spec height _ 0 [] _ (by simp) hres
  exact ⟨sleeps, final, hres, hspec.2, hspec.1⟩

/-- A sandbox chain that starts at level 50 and grows one block per
poll. -/
def heightW : ℕ → ℤ := fun i => 50 + i

/-- Witness for C9 on the concrete height sequence 50, 51, 52, …. -/
theorem claim_C9_witness :
    (∀ i, heightW (i+1) = heightW i + 1)
    ∧ ∃ sleeps final,
        check_blockchain_maturity heightW
            ((MIN_BLOCKCHAIN_LEVEL - heightW 0).toNat + 1) 0 []
          = some (sleeps, final)
        ∧ 60 ≤ final
        ∧ ∀ p ∈ sleeps, p.2 = (60 - p.1) * 2 ∧ p.1 < 60 := by
  have hstep : ∀ i, heightW (i+1) = heightW i + 1 := by
    intro i
    show (50 : ℤ) + (↑(i+1) : ℤ) = 50 + ↑i + 1
    push_cast
    ring
  exact ⟨hstep, claim_C9_gate_sleeps_and_terminates heightW hstep⟩

end Zeekoe
